import Mathlib

/-!
Verification of the defensive input layer of the Perf-Chart-Gen repository
(`src/security.py`): the CSV-injection sanitizer, the CSV guard, the
sliding-window rate limiter, the email validator and the bounded email store.

Strings are modelled as `List Char` where character-level reasoning is
needed, and as `String` elsewhere.  All character classes follow the ASCII
reading of the Python regexes (the repository only feeds ASCII data through
these paths).
-/

namespace Security

/-- The quote character `'` used as the neutralizing marker. -/
def quoteChar : Char := Char.ofNat 39

/-- The null character stripped by `sanitize_string`. -/
def nullChar : Char := Char.ofNat 0

/-- Python `str.strip()` whitespace (ASCII part). -/
def isPySpace (c : Char) : Bool :=
  c == ' ' || c == Char.ofNat 9 || c == Char.ofNat 10 ||
  c == Char.ofNat 13 || c == Char.ofNat 11 || c == Char.ofNat 12

/-- Python `value.strip()`: drop leading and trailing whitespace. -/
def pyStrip (l : List Char) : List Char :=
  ((l.dropWhile isPySpace).reverse.dropWhile isPySpace).reverse

/-- Case-insensitive "the string starts with this (lowercase) pattern",
modelling `re.match(pat, value, re.IGNORECASE)` for a literal pattern. -/
def listStartsWithCI : List Char → List Char → Bool
  | [], _ => true
  | _ :: _, [] => false
  | p :: ps, c :: cs => (c.toLower == p) && listStartsWithCI ps cs

/-- A regex word character `\w` (ASCII reading): letter, digit or underscore. -/
def isWordChar (c : Char) : Bool :=
  c.isAlphanum || c == '_'

/-- The pattern `^-(?!\d)`: a leading minus not followed by a digit. -/
def bareMinusMatch : List Char → Bool
  | '-' :: [] => true
  | '-' :: c :: _ => !c.isDigit
  | _ => false

/-- The pattern `on\w+=` under `re.match`: the string starts with "on"
(case-insensitive), then one or more word characters, then `=`.  Since `=`
is not a word character, regex backtracking never helps, so this equals:
after "on", the maximal word-character run is nonempty and is followed
by `=`. -/
def eventHandlerMatch : List Char → Bool
  | c1 :: c2 :: rest =>
      (c1.toLower == 'o') && (c2.toLower == 'n') &&
      !(rest.takeWhile isWordChar).isEmpty &&
      ((rest.dropWhile isWordChar).head? == some '=')
  | _ => false

/-- `DANGEROUS_PATTERNS` from `src/security.py`, in source order, each
regex rendered as the predicate "`re.match(pattern, value, re.IGNORECASE)`
succeeds".  `re.match` anchors at the start of the string, so every
pattern here is a start-of-string test. -/
def DANGEROUS_PATTERNS : List (List Char → Bool) :=
  [ fun v => listStartsWithCI ['='] v,
    fun v => listStartsWithCI ['@'] v,
    fun v => listStartsWithCI ['+'] v,
    bareMinusMatch,
    fun v => listStartsWithCI ['!'] v,
    fun v => listStartsWithCI ['|'] v,
    fun v => listStartsWithCI [';'] v,
    fun v => listStartsWithCI ['<', 's', 'c', 'r', 'i', 'p', 't'] v,
    fun v => listStartsWithCI ['j', 'a', 'v', 'a', 's', 'c', 'r', 'i', 'p', 't', ':'] v,
    fun v => listStartsWithCI ['d', 'a', 't', 'a', ':'] v,
    eventHandlerMatch ]

/-- The loop `for pattern in DANGEROUS_PATTERNS: if re.match(...)` — the
value is flagged iff some pattern matches (the loop prepends the marker
once and breaks on the first match, so only matched-or-not is relevant). -/
def matchesDangerous (v : List Char) : Bool :=
  DANGEROUS_PATTERNS.any (fun p => p v)

/-- `CSV_LIMITS` from `src/security.py`. -/
structure CsvLimits where
  max_rows : Nat
  max_columns : Nat
  max_cell_length : Nat
  max_file_size_mb : Nat

def CSV_LIMITS : CsvLimits :=
  { max_rows := 500, max_columns := 50, max_cell_length := 200, max_file_size_mb := 10 }

/-- `sanitize_string` from `src/security.py` (on an input that is already a
string): trim whitespace, remove null bytes, prepend a single quote if any
dangerous pattern matches, then truncate to `max_cell_length`. -/
def sanitize_string (l : List Char) : List Char :=
  let v1 := pyStrip l
  let v2 := v1.filter (fun c => c != nullChar)
  let v3 := if matchesDangerous v2 then quoteChar :: v2 else v2
  if CSV_LIMITS.max_cell_length < v3.length then v3.take CSV_LIMITS.max_cell_length else v3

/-- A pandas column as seen by `validate_csv_security`: its label, whether
its dtype is `object` (string-typed), and its cells (`none` models a
missing value, for which `pd.notna` is false and the cell is left alone;
a present cell is a string, since `str(x)` on a string is the string
itself). -/
structure Column where
  name : List Char
  isObject : Bool
  cells : List (Option (List Char))
deriving DecidableEq, Repr

/-- A pandas DataFrame as seen by `validate_csv_security`: its columns and
its row count (`len(df)`). -/
structure DataFrame where
  cols : List Column
  nRows : Nat
deriving DecidableEq, Repr

/-- The sanitization pass of `validate_csv_security` on one column:
cells of object columns are passed through `sanitize_string` (missing
values untouched), and the column label is sanitized (the rename step). -/
def sanitizeColumn (c : Column) : Column :=
  { name := sanitize_string c.name,
    isObject := c.isObject,
    cells := if c.isObject then c.cells.map (Option.map sanitize_string) else c.cells }

/-- `validate_csv_security` from `src/security.py`.  The file-size test
`file_size_bytes / (1024*1024) > max_file_size_mb` is exact on floats
(division by a power of two), hence equals `max_mb * 1024 * 1024 <
file_size_bytes` on integers.  The `:.1f` float rendering in the
file-size message is elided (no claim inspects that message). -/
def validate_csv_security (df : DataFrame) (file_size_bytes : Nat) :
    Bool × String × DataFrame :=
  if CSV_LIMITS.max_file_size_mb * 1024 * 1024 < file_size_bytes then
    (false, "File too large. Maximum size is " ++ toString CSV_LIMITS.max_file_size_mb
      ++ "MB", df)
  else if CSV_LIMITS.max_rows < df.nRows then
    (false, "Too many rows. Maximum is " ++ toString CSV_LIMITS.max_rows
      ++ " athletes, got " ++ toString df.nRows, df)
  else if CSV_LIMITS.max_columns < df.cols.length then
    (false, "Too many columns. Maximum is " ++ toString CSV_LIMITS.max_columns
      ++ ", got " ++ toString df.cols.length, df)
  else if df.nRows = 0 then
    (false, "CSV file is empty", df)
  else
    (true, "", { cols := df.cols.map sanitizeColumn, nRows := df.nRows })

/-- Does `pat` occur as a contiguous run inside `s`?  Used to check that a
rejection reason mentions a specific number. -/
def listStartsWith : List Char → List Char → Bool
  | [], _ => true
  | _ :: _, [] => false
  | p :: ps, c :: cs => (p == c) && listStartsWith ps cs

def containsSeq (pat : List Char) : List Char → Bool
  | [] => pat.isEmpty
  | c :: cs => listStartsWith pat (c :: cs) || containsSeq pat cs

/-! ### Rate limiter

`RateLimiter.check_rate_limit` keeps, per `(session, action)` key, a list
of timestamps.  Timestamps are modelled as integers (seconds); the state
for one key is the `List Int` of recorded timestamps.  `datetime.now()`
becomes an explicit `now` argument at each call. -/

/-- `RateLimiter.check_rate_limit` for one `(session, action)` key: prune
timestamps at or before `now - window_seconds`, compare the remaining
count with the limit.  Returns `(is_allowed, remaining, new state)`; the
pruned list is written back to the session state even when denied. -/
def check_rate_limit (limit : Nat) (window_seconds : Int) (now : Int)
    (ts : List Int) : Bool × Int × List Int :=
  let pruned := ts.filter (fun t => now - window_seconds < t)
  if limit ≤ pruned.length then (false, 0, pruned)
  else (true, (limit : Int) - pruned.length, pruned)

/-- `RateLimiter.record_action` for one key: append the current time. -/
def record_action (now : Int) (ts : List Int) : List Int :=
  ts ++ [now]

/-- One check-then-record-if-allowed round: `check_rate_limit` at time `c`,
followed by `record_action` at time `r` when the check allowed. -/
def rateLimitStep (limit : Nat) (window_seconds : Int) (c r : Int)
    (ts : List Int) : List Int :=
  let res := check_rate_limit limit window_seconds c ts
  if res.1 then record_action r res.2.2 else res.2.2

/-- Run a sequence of check-then-record rounds, each given as a pair
`(check time, record time)`. -/
def runCalls (limit : Nat) (window_seconds : Int) :
    List (Int × Int) → List Int → List Int
  | [], ts => ts
  | (c, r) :: rest, ts =>
      runCalls limit window_seconds rest (rateLimitStep limit window_seconds c r ts)

/-! ### Email validator -/

/-- `DISPOSABLE_EMAIL_DOMAINS` from `src/security.py`. -/
def DISPOSABLE_EMAIL_DOMAINS : List String :=
  [ "mailinator.com", "guerrillamail.com", "tempmail.com", "throwaway.email",
    "10minutemail.com", "temp-mail.org", "fakeinbox.com", "trashmail.com",
    "mailnesia.com", "tempail.com", "dispostable.com", "mailcatch.com",
    "yopmail.com", "sharklasers.com", "guerrillamail.info", "grr.la",
    "guerrillamail.biz", "guerrillamail.de", "guerrillamail.net",
    "guerrillamail.org", "spam4.me", "getairmail.com", "throwawaymail.com",
    "getnada.com", "tempinbox.com", "emailondeck.com", "fakemailgenerator.com",
    "mailforspam.com", "tempr.email", "discard.email", "discardmail.com",
    "spamgourmet.com", "mytrashmail.com", "mt2009.com", "thankyou2010.com",
    "spam.la", "speed.1s.fr", "spamfree24.org", "spamfree24.de",
    "spamfree24.eu", "spamfree24.info", "spamfree24.net", "wegwerfmail.de",
    "wegwerfmail.net", "wegwerfmail.org", "meltmail.com", "mintemail.com",
    "tempmailaddress.com", "burnermail.io", "maildrop.cc", "inboxalias.com" ]

/-- `EMAIL_TYPO_CORRECTIONS` from `src/security.py`, in source order. -/
def EMAIL_TYPO_CORRECTIONS : List (String × String) :=
  [ ("gamil.com", "gmail.com"),
    ("gmial.com", "gmail.com"),
    ("gmal.com", "gmail.com"),
    ("gmail.co", "gmail.com"),
    ("gmaill.com", "gmail.com"),
    ("gnail.com", "gmail.com"),
    ("gmail.cm", "gmail.com"),
    ("gmail.om", "gmail.com"),
    ("hotmal.com", "hotmail.com"),
    ("hotmai.com", "hotmail.com"),
    ("hotmil.com", "hotmail.com"),
    ("hotmail.co", "hotmail.com"),
    ("outlok.com", "outlook.com"),
    ("outloo.com", "outlook.com"),
    ("outlook.co", "outlook.com"),
    ("yaho.com", "yahoo.com"),
    ("yahooo.com", "yahoo.com"),
    ("yahoo.co", "yahoo.com"),
    ("yahoomail.com", "yahoo.com"),
    ("iclud.com", "icloud.com"),
    ("icoud.com", "icloud.com"),
    ("icloud.co", "icloud.com") ]

/-- Dictionary lookup `domain in EMAIL_TYPO_CORRECTIONS` /
`EMAIL_TYPO_CORRECTIONS[domain]`. -/
def lookupTypo (d : String) : Option String :=
  (EMAIL_TYPO_CORRECTIONS.find? (fun p => p.1 == d)).map (fun p => p.2)

/-- Python `email.strip().lower()` (ASCII reading of `lower`). -/
def normalizeEmail (s : String) : String :=
  ⟨(pyStrip s.toList).map Char.toLower⟩

/-- The email regex `^[a-zA-Z0-9._%+-]+@[a-zA-Z0-9.-]+\.[a-zA-Z]{2,}$`:
allowed local-part characters. -/
def isLocalChar (c : Char) : Bool :=
  c.isAlphanum || c == '.' || c == '_' || c == '%' || c == '+' || c == '-'

/-- Allowed domain characters (before the final dot) in the email regex. -/
def isDomainChar (c : Char) : Bool :=
  c.isAlphanum || c == '.' || c == '-'

/-- The domain half of the email regex, `[a-zA-Z0-9.-]+\.[a-zA-Z]{2,}$`:
since the TLD is all letters and preceded by a dot, a match forces the TLD
to be the maximal alphabetic suffix, preceded by a dot, with a nonempty
all-domain-chars part before it. -/
def domainFormatOk (d : List Char) : Bool :=
  let rd := d.reverse
  let tld := rd.takeWhile Char.isAlpha
  2 ≤ tld.length &&
    match rd.dropWhile Char.isAlpha with
    | '.' :: p => !p.isEmpty && p.all isDomainChar
    | _ => false

/-- The full email regex under `re.match ... $`: a nonempty run of
local-part characters, then `@`, then a conforming domain.  Since `@` is
neither a local-part nor a domain character, the `@` of the pattern must
match the first `@` of the string. -/
def emailFormatOk (l : List Char) : Bool :=
  let loc := l.takeWhile (fun c => c != '@')
  match l.dropWhile (fun c => c != '@') with
  | '@' :: d => !loc.isEmpty && loc.all isLocalChar && domainFormatOk d
  | _ => false

/-- Python `email.rsplit(chr(64), 1)` followed by two-variable unpacking:
split at the last `@`, or fail (ValueError) when there is no `@`. -/
def rsplitEmail (e : String) : Option (String × String) :=
  let r := e.toList.reverse
  match r.dropWhile (fun c => c != '@') with
  | '@' :: loc => some (⟨loc.reverse⟩, ⟨(r.takeWhile (fun c => c != '@')).reverse⟩)
  | _ => none

/-- `validate_email` from `src/security.py`.  The stage-4 liveness probe
`check_mx_record` performs DNS resolution, so it is taken as an explicit
oracle argument `mx`; no claim depends on it because the typo stage
returns first.  Returns `(is_valid, error_message, suggestion)`. -/
def validate_email (mx : String → Bool) (email : String) :
    Bool × String × Option String :=
  if email.isEmpty then (false, "Email is required", none)
  else
    let e := normalizeEmail email
    if 254 < e.length then (false, "Email address too long", none)
    else if !emailFormatOk e.toList then
      (false, "Invalid email format. Please check for typos.", none)
    else
      match rsplitEmail e with
      | none => (false, "Invalid email format", none)
      | some (local_part, domain) =>
        if local_part.isEmpty then (false, "Invalid email format", none)
        else
          match lookupTypo domain with
          | some correct_domain =>
              (false, "Did you mean " ++ local_part ++ "@" ++ correct_domain ++ "?",
                some (local_part ++ "@" ++ correct_domain))
          | none =>
            if DISPOSABLE_EMAIL_DOMAINS.contains domain then
              (false,
                "Temporary email addresses are not allowed. Please use your regular email.",
                none)
            else if !mx domain then
              (false, "The domain '" ++ domain ++
                "' doesn't appear to exist. Please check your email address.", none)
            else (true, "", none)

/-! ### Email store

`save_email` works on a JSON file: it stats the file for its size, loads
the record list when the file exists, and writes the extended list back.
The store is modelled as the file's observable state: whether it exists,
its byte size, and the record list it holds (`[]` when it does not
exist).  The byte size produced by `json.dump` is not re-implemented;
instead the serialized size is an oracle argument `serSize`, applied to
the records written. -/

def MAX_EMAILS_STORED : Nat := 10000
def EMAILS_FILE_MAX_MB : Nat := 2

/-- One entry of `collected_emails.json`, as built in `save_email`. -/
structure EmailRecord where
  email : String
  session_id : String
  timestamp : String
  consent : Bool
deriving DecidableEq, Repr

/-- Observable state of the email store file. -/
structure EmailStore where
  fileExists : Bool
  sizeBytes : Nat
  records : List EmailRecord
deriving DecidableEq, Repr

/-- Python `s.lower()` (ASCII reading). -/
def pyLower (s : String) : String :=
  ⟨s.toList.map Char.toLower⟩

/-- The file contents `save_email` loads: `[]` when the file is absent. -/
def loadedRecords (store : EmailStore) : List EmailRecord :=
  if store.fileExists then store.records else []

/-- `save_email` from `src/security.py`.  Checks in source order: consent;
file-size cap (only when the file exists); record-count cap; duplicate
(case-insensitive on both sides); otherwise append the record — with the
email exactly as passed — and persist.  `session_id` and `timestamp` are
the values `get_session_id` and `datetime.now().isoformat()` would
produce, passed in explicitly. -/
def save_email (serSize : List EmailRecord → Nat) (email session_id timestamp : String)
    (consent_given : Bool) (store : EmailStore) : Bool × EmailStore :=
  if !consent_given then (false, store)
  else if store.fileExists && EMAILS_FILE_MAX_MB * 1024 * 1024 < store.sizeBytes then
    (true, store)
  else
    let emails_data := loadedRecords store
    if MAX_EMAILS_STORED ≤ emails_data.length then (true, store)
    else if (emails_data.map (fun r => pyLower r.email)).contains (pyLower email) then
      (true, store)
    else
      let entry : EmailRecord :=
        { email := email, session_id := session_id,
          timestamp := timestamp, consent := consent_given }
      let newData := emails_data ++ [entry]
      (true, { fileExists := true, sizeBytes := serSize newData, records := newData })

/-- `get_email_count` from `src/security.py`: the length of the loaded
list, `0` when the file is absent. -/
def get_email_count (store : EmailStore) : Nat :=
  (loadedRecords store).length

/-- The spec's uniqueness condition on a record list: at most one record
per normalized (lowercased) email address. -/
def normUnique (l : List EmailRecord) : Prop :=
  l.Pairwise (fun a b => pyLower a.email ≠ pyLower b.email)

end Security

open Security

/-- C2: `sanitize_string` applied to "=1+1", "@SUM(A1)" and
"<script>alert(1)</script>" returns a string whose first character is the
neutralizing single-quote marker, while "-5" is returned unchanged (the
bare-minus rule does not flag a minus followed by a digit). -/
theorem claim_C2_sanitize_examples :
    (sanitize_string "=1+1".toList).head? = some quoteChar ∧
    (sanitize_string "@SUM(A1)".toList).head? = some quoteChar ∧
    (sanitize_string "<script>alert(1)</script>".toList).head? = some quoteChar ∧
    sanitize_string "-5".toList = "-5".toList := by
  refine ⟨by decide, by decide, by decide, by decide⟩

/-- C3: whenever `validate_csv_security` rejects (`accepted = false`), the
table component of the returned tuple is the caller's table unchanged. -/
theorem claim_C3_reject_table_unchanged (df : DataFrame) (n : Nat)
    (h : (validate_csv_security df n).1 = false) :
    (validate_csv_security df n).2.2 = df := by
  unfold validate_csv_security at h ⊢
  split_ifs at h ⊢ <;> simp_all

theorem claim_C3_witness :
    (validate_csv_security { cols := [], nRows := 501 } 0).2.2 =
      { cols := [], nRows := 501 } :=
  claim_C3_reject_table_unchanged { cols := [], nRows := 501 } 0 (by decide)

/-- C4: for every table passing the file-size and column-count checks, a
table with 501 rows is rejected with a reason containing "500", and a
table with exactly 500 rows is accepted (the remaining check, emptiness,
also passes since 500 > 0). -/
theorem claim_C4_row_cap (df : DataFrame) (n : Nat)
    (hsize : n ≤ CSV_LIMITS.max_file_size_mb * 1024 * 1024)
    (hcols : df.cols.length ≤ CSV_LIMITS.max_columns) :
    (df.nRows = 501 →
      (validate_csv_security df n).1 = false ∧
      containsSeq "500".toList (validate_csv_security df n).2.1.toList = true) ∧
    (df.nRows = 500 → (validate_csv_security df n).1 = true) := by
  have hn : ¬ (CSV_LIMITS.max_file_size_mb * 1024 * 1024 < n) := Nat.not_lt.mpr hsize
  have hc : ¬ (CSV_LIMITS.max_columns < df.cols.length) := Nat.not_lt.mpr hcols
  constructor
  · intro h
    unfold validate_csv_security
    rw [h, if_neg hn, if_pos (by decide)]
    refine ⟨rfl, ?_⟩
    show containsSeq "500".toList
      ("Too many rows. Maximum is " ++ toString CSV_LIMITS.max_rows
        ++ " athletes, got " ++ toString (501 : Nat)).toList = true
    decide
  · intro h
    unfold validate_csv_security
    rw [h, if_neg hn, if_neg (by decide), if_neg hc, if_neg (by decide)]

theorem claim_C4_witness :
    ((validate_csv_security { cols := [], nRows := 501 } 0).1 = false ∧
      containsSeq "500".toList
        (validate_csv_security { cols := [], nRows := 501 } 0).2.1.toList = true) ∧
    (validate_csv_security { cols := [], nRows := 500 } 0).1 = true :=
  ⟨(claim_C4_row_cap { cols := [], nRows := 501 } 0 (by decide) (by decide)).1 rfl,
   (claim_C4_row_cap { cols := [], nRows := 500 } 0 (by decide) (by decide)).2 rfl⟩

/-- C7: `save_email` with `consent_given = false` returns `false` and
leaves the store completely unchanged, so `get_email_count` before and
after the call are equal. -/
theorem claim_C7_no_consent_no_write (serSize : List EmailRecord → Nat)
    (email sid ts : String) (store : EmailStore) :
    save_email serSize email sid ts false store = (false, store) ∧
    get_email_count (save_email serSize email sid ts false store).2 =
      get_email_count store :=
  ⟨rfl, rfl⟩

/-- Structure of a `save_email` call: either the store is returned
untouched, or the count cap had room and exactly the new entry was
appended to the loaded records. -/
theorem save_email_result (serSize : List EmailRecord → Nat) (email sid ts : String)
    (consent : Bool) (store : EmailStore) :
    (save_email serSize email sid ts consent store).2 = store ∨
    ((loadedRecords store).length < MAX_EMAILS_STORED ∧
      (save_email serSize email sid ts consent store).2 =
        { fileExists := true,
          sizeBytes := serSize (loadedRecords store ++
            [{ email := email, session_id := sid, timestamp := ts, consent := consent }]),
          records := loadedRecords store ++
            [{ email := email, session_id := sid, timestamp := ts, consent := consent }] }) := by
  simp only [save_email]
  split_ifs with h1 h2 h3 h4
  · exact Or.inl rfl
  · exact Or.inl rfl
  · exact Or.inl rfl
  · exact Or.inl rfl
  · exact Or.inr ⟨by omega, rfl⟩

/-- C5: for every consenting save, if the store's record count has reached
`MAX_EMAILS_STORED` or its serialized size exceeds `EMAILS_FILE_MAX_MB`,
`save_email` returns `true` without appending; consequently a store whose
count is at most the cap keeps its count at most the cap. -/
theorem claim_C5_silent_caps (serSize : List EmailRecord → Nat)
    (email sid ts : String) (store : EmailStore) :
    ((store.fileExists = true ∧ EMAILS_FILE_MAX_MB * 1024 * 1024 < store.sizeBytes) ∨
        MAX_EMAILS_STORED ≤ get_email_count store →
      save_email serSize email sid ts true store = (true, store)) ∧
    (get_email_count store ≤ MAX_EMAILS_STORED →
      get_email_count (save_email serSize email sid ts true store).2 ≤
        MAX_EMAILS_STORED) := by
  constructor
  · intro hcap
    simp only [save_email]
    split_ifs with h1 h2 h3 h4
    · simp at h1
    · rfl
    · rfl
    · rfl
    · exfalso
      rcases hcap with ⟨hf, hs⟩ | hcnt
      · exact h2 (by simp [hf, hs])
      · exact h3 (by simpa [get_email_count] using hcnt)
  · intro hle
    rcases save_email_result serSize email sid ts true store with h | ⟨hlt, h⟩
    · rw [h]; exact hle
    · rw [h]
      simp [get_email_count, loadedRecords] at hlt ⊢
      omega

theorem claim_C5_witness :
    save_email (fun _ => 0) "a@b.com" "s" "t" true
        { fileExists := true, sizeBytes := 3000000, records := [] } =
      (true, { fileExists := true, sizeBytes := 3000000, records := [] }) ∧
    get_email_count (save_email (fun _ => 0) "a@b.com" "s" "t" true
        { fileExists := true, sizeBytes := 3000000, records := [] }).2 ≤
      MAX_EMAILS_STORED :=
  ⟨(claim_C5_silent_caps (fun _ => 0) "a@b.com" "s" "t"
      { fileExists := true, sizeBytes := 3000000, records := [] }).1
        (Or.inl ⟨rfl, by decide⟩),
   (claim_C5_silent_caps (fun _ => 0) "a@b.com" "s" "t"
      { fileExists := true, sizeBytes := 3000000, records := [] }).2 (by decide)⟩

/-- C9: `sanitize_string` is the identity on every already-clean short
string — no leading or trailing whitespace, no embedded nulls, no
injection-signature pattern matches, length at most the cell cap — and is
therefore idempotent on such strings. -/
theorem claim_C9_clean_identity (l : List Char)
    (hstrip : pyStrip l = l)
    (hnull : Security.nullChar ∉ l)
    (hpat : matchesDangerous l = false)
    (hlen : l.length ≤ CSV_LIMITS.max_cell_length) :
    sanitize_string l = l ∧ sanitize_string (sanitize_string l) = sanitize_string l := by
  have hfilter : l.filter (fun c => c != Security.nullChar) = l := by
    refine List.filter_eq_self.mpr ?_
    intro a ha
    simp only [bne_iff_ne, ne_eq]
    intro h
    exact hnull (h ▸ ha)
  have main : sanitize_string l = l := by
    simp only [sanitize_string]
    rw [hstrip, hfilter, hpat]
    simp [Nat.not_lt.mpr hlen]
  exact ⟨main, by rw [main]; exact main⟩

theorem claim_C9_witness :
    sanitize_string "abc".toList = "abc".toList ∧
    sanitize_string (sanitize_string "abc".toList) = sanitize_string "abc".toList :=
  claim_C9_clean_identity "abc".toList (by decide) (by decide) (by decide) (by decide)

/-- Auxiliary: when consent is given, no cap is hit and the normalized
email is not yet present, `save_email` appends exactly one record —
carrying the email as passed — and reports success. -/
theorem save_email_appends (serSize : List EmailRecord → Nat) (email sid ts : String)
    (store : EmailStore)
    (hsize : ¬(store.fileExists = true ∧
      EMAILS_FILE_MAX_MB * 1024 * 1024 < store.sizeBytes))
    (hcount : (loadedRecords store).length < MAX_EMAILS_STORED)
    (hdup : ((loadedRecords store).map (fun r => pyLower r.email)).contains
      (pyLower email) = false) :
    save_email serSize email sid ts true store =
      (true,
        { fileExists := true,
          sizeBytes := serSize (loadedRecords store ++
            [{ email := email, session_id := sid, timestamp := ts, consent := true }]),
          records := loadedRecords store ++
            [{ email := email, session_id := sid, timestamp := ts, consent := true }] }) := by
  simp only [save_email]
  rw [if_neg (by simp), if_neg ?hsz, if_neg (Nat.not_le.mpr hcount),
    if_neg (by rw [hdup]; exact Bool.false_ne_true)]
  case hsz =>
    simp only [Bool.and_eq_true, decide_eq_true_eq]
    exact hsize

/-- Auxiliary: with consent given, if the normalized email is already
among the loaded records, `save_email` reports success and leaves the
store untouched no matter which branch fires. -/
theorem save_email_dup (serSize : List EmailRecord → Nat) (email sid ts : String)
    (store : EmailStore)
    (hdup : ((loadedRecords store).map (fun r => pyLower r.email)).contains
      (pyLower email) = true) :
    save_email serSize email sid ts true store = (true, store) := by
  simp only [save_email]
  rw [if_neg (by simp)]
  by_cases h1 : (store.fileExists &&
      decide (EMAILS_FILE_MAX_MB * 1024 * 1024 < store.sizeBytes)) = true
  · rw [if_pos h1]
  · rw [if_neg h1]
    by_cases h2 : MAX_EMAILS_STORED ≤ (loadedRecords store).length
    · rw [if_pos h2]
    · rw [if_neg h2, if_pos hdup]

/-- C6 is false for arbitrary store states: for a store that already
holds "a@b.com", calling `save_email` twice with "a@b.com" and consent
returns `true` both times but `get_email_count` increases by 0, not by
exactly 1. -/
theorem claim_C6_counterexample :
    let store : EmailStore :=
      { fileExists := true, sizeBytes := 100,
        records := [{ email := "a@b.com", session_id := "s0",
                      timestamp := "t0", consent := true }] }
    let r1 := save_email (fun _ => 0) "a@b.com" "s1" "t1" true store
    let r2 := save_email (fun _ => 0) "a@b.com" "s2" "t2" true r1.2
    r1.1 = true ∧ r2.1 = true ∧ get_email_count store = 1 ∧
      get_email_count r2.2 ≠ get_email_count store + 1 := by
  decide

/-- C6 (amended): for a store below both caps, not already containing the
normalized email, and satisfying the normalized-uniqueness invariant,
calling `save_email` twice with the same normalized (case-insensitively
equal) email and consent returns `true` both times, `get_email_count`
increases by exactly 1 across the two calls, and the store still holds at
most one record per normalized email. -/
theorem claim_C6_amended (serSize : List EmailRecord → Nat)
    (e1 e2 sid1 sid2 ts1 ts2 : String) (store : EmailStore)
    (hnorm : pyLower e1 = pyLower e2)
    (hsize : ¬(store.fileExists = true ∧
      EMAILS_FILE_MAX_MB * 1024 * 1024 < store.sizeBytes))
    (hcount : (loadedRecords store).length < MAX_EMAILS_STORED)
    (hdup : ((loadedRecords store).map (fun r => pyLower r.email)).contains
      (pyLower e1) = false)
    (huniq : normUnique (loadedRecords store)) :
    (save_email serSize e1 sid1 ts1 true store).1 = true ∧
    (save_email serSize e2 sid2 ts2 true
        (save_email serSize e1 sid1 ts1 true store).2).1 = true ∧
    get_email_count (save_email serSize e2 sid2 ts2 true
        (save_email serSize e1 sid1 ts1 true store).2).2 =
      get_email_count store + 1 ∧
    normUnique (save_email serSize e2 sid2 ts2 true
        (save_email serSize e1 sid1 ts1 true store).2).2.records := by
  have h1 := save_email_appends serSize e1 sid1 ts1 store hsize hcount hdup
  have hmem : pyLower e2 ∈
      (loadedRecords store ++
        [({ email := e1, session_id := sid1, timestamp := ts1,
            consent := true } : EmailRecord)]).map (fun r => pyLower r.email) :=
    List.mem_map.mpr
      ⟨{ email := e1, session_id := sid1, timestamp := ts1, consent := true },
        List.mem_append_right _ (List.mem_singleton_self _), hnorm⟩
  have h2 : save_email serSize e2 sid2 ts2 true
      { fileExists := true,
        sizeBytes := serSize (loadedRecords store ++
          [{ email := e1, session_id := sid1, timestamp := ts1, consent := true }]),
        records := loadedRecords store ++
          [{ email := e1, session_id := sid1, timestamp := ts1, consent := true }] } =
      (true,
        { fileExists := true,
          sizeBytes := serSize (loadedRecords store ++
            [{ email := e1, session_id := sid1, timestamp := ts1, consent := true }]),
          records := loadedRecords store ++
            [{ email := e1, session_id := sid1, timestamp := ts1, consent := true }] }) := by
    apply save_email_dup
    exact List.elem_eq_true_of_mem (by simpa [loadedRecords] using hmem)
  refine ⟨by rw [h1], ?_, ?_, ?_⟩
  · rw [h1]
    exact congrArg Prod.fst h2
  · rw [h1]
    show get_email_count (save_email serSize e2 sid2 ts2 true _).2 = _
    rw [h2]
    simp [get_email_count, loadedRecords]
  · rw [h1]
    show normUnique (save_email serSize e2 sid2 ts2 true _).2.records
    rw [h2]
    show normUnique (loadedRecords store ++
      [{ email := e1, session_id := sid1, timestamp := ts1, consent := true }])
    refine List.pairwise_append.mpr ⟨huniq, List.pairwise_singleton _ _, ?_⟩
    intro a ha b hb
    rw [List.mem_singleton.mp hb]
    intro hEq
    have hin : pyLower e1 ∈ (loadedRecords store).map (fun r => pyLower r.email) :=
      List.mem_map.mpr ⟨a, ha, hEq⟩
    have hc : ((loadedRecords store).map (fun r => pyLower r.email)).contains
        (pyLower e1) = true :=
      List.elem_eq_true_of_mem hin
    rw [hdup] at hc
    exact Bool.false_ne_true hc

theorem claim_C6_witness :
    (save_email (fun _ => 0) "A@b.com" "s1" "t1" true
        { fileExists := false, sizeBytes := 0, records := [] }).1 = true ∧
    (save_email (fun _ => 0) "a@B.com" "s2" "t2" true
        (save_email (fun _ => 0) "A@b.com" "s1" "t1" true
          { fileExists := false, sizeBytes := 0, records := [] }).2).1 = true ∧
    get_email_count (save_email (fun _ => 0) "a@B.com" "s2" "t2" true
        (save_email (fun _ => 0) "A@b.com" "s1" "t1" true
          { fileExists := false, sizeBytes := 0, records := [] }).2).2 =
      get_email_count { fileExists := false, sizeBytes := 0, records := [] } + 1 ∧
    normUnique (save_email (fun _ => 0) "a@B.com" "s2" "t2" true
        (save_email (fun _ => 0) "A@b.com" "s1" "t1" true
          { fileExists := false, sizeBytes := 0, records := [] }).2).2.records :=
  claim_C6_amended (fun _ => 0) "A@b.com" "a@B.com" "s1" "s2" "t1" "t2"
    { fileExists := false, sizeBytes := 0, records := [] }
    (by decide) (by simp) (by decide) (by decide)
    (by simp [normUnique, loadedRecords])

/-- C10 is false as stated: `save_email` appends the email exactly as
passed, not its lowercase normalization — on an empty store, saving the
mixed-case "User@Example.com" with consent stores a record whose email
field is "User@Example.com", which is not lowercase-normalized. -/
theorem claim_C10_counterexample :
    (save_email (fun _ => 0) "User@Example.com" "s" "t" true
        { fileExists := false, sizeBytes := 0, records := [] }).2.records.map
        (fun r => r.email) = ["User@Example.com"] ∧
    pyLower "User@Example.com" ≠ "User@Example.com" := by
  decide

/-- C10 (amended): every record appended by a consenting, accepted
`save_email` call carries the email exactly as passed to the call (only
duplicate detection lowercases); no lowercase normalization is applied to
the stored email field. -/
theorem claim_C10_amended (serSize : List EmailRecord → Nat) (email sid ts : String)
    (store : EmailStore)
    (hsize : ¬(store.fileExists = true ∧
      EMAILS_FILE_MAX_MB * 1024 * 1024 < store.sizeBytes))
    (hcount : (loadedRecords store).length < MAX_EMAILS_STORED)
    (hdup : ((loadedRecords store).map (fun r => pyLower r.email)).contains
      (pyLower email) = false) :
    (save_email serSize email sid ts true store).1 = true ∧
    (save_email serSize email sid ts true store).2.records =
      loadedRecords store ++
        [{ email := email, session_id := sid, timestamp := ts, consent := true }] := by
  rw [save_email_appends serSize email sid ts store hsize hcount hdup]
  exact ⟨rfl, rfl⟩

theorem claim_C10_witness :
    (save_email (fun _ => 0) "User@Example.com" "s" "t" true
        { fileExists := false, sizeBytes := 0, records := [] }).2.records =
      loadedRecords { fileExists := false, sizeBytes := 0, records := [] } ++
        [{ email := "User@Example.com", session_id := "s", timestamp := "t",
           consent := true }] :=
  (claim_C10_amended (fun _ => 0) "User@Example.com" "s" "t"
    { fileExists := false, sizeBytes := 0, records := [] }
    (by simp) (by decide) (by decide)).2

/-- C8: for every address whose normalized form passes the format checks
and whose domain is a key of `EMAIL_TYPO_CORRECTIONS`, `validate_email`
rejects it (`is_valid = false`) and returns the suggestion
`local@corrected-domain`; in particular "user@gmial.com" yields the
suggestion "user@gmail.com" (see the witness). -/
theorem claim_C8_typo_suggestion (mx : String → Bool) (email loc dom corr : String)
    (h0 : email.isEmpty = false)
    (h1 : (normalizeEmail email).length ≤ 254)
    (h2 : emailFormatOk (normalizeEmail email).toList = true)
    (h3 : rsplitEmail (normalizeEmail email) = some (loc, dom))
    (h4 : loc.isEmpty = false)
    (h5 : lookupTypo dom = some corr) :
    validate_email mx email =
      (false, "Did you mean " ++ loc ++ "@" ++ corr ++ "?",
        some (loc ++ "@" ++ corr)) := by
  have h2d : emailFormatOk (normalizeEmail email).data = true := h2
  unfold validate_email
  rw [if_neg (by simp [h0]), if_neg (Nat.not_lt.mpr h1), if_neg (by simp [h2d]), h3]
  simp only
  rw [if_neg (by simp [h4]), h5]

/-- C1 is false for arbitrary initial session state: with `limit = 2 ≥ 0`,
`window_seconds = 100 > 0` and a session state already holding two
timestamps at time 1000, three `check_rate_limit` calls at times 1099,
1101 and 1102 — all within one window (span 3 < 100), with
`record_action` performed after each allowed check — end with the third
(`limit+1`-th) call returning `allowed = true`, not `false`: the two
stale timestamps leave the window between the first and second call. -/
theorem claim_C1_counterexample :
    (check_rate_limit 2 100 1102
      (runCalls 2 100 [(1099, 1099), (1101, 1101)] [1000, 1000])).1 = true := by
  decide

/-- Auxiliary to C1: running check-then-record rounds whose check and
record times all lie in the window `(T - window, T]` from a state of
fresh timestamps appends exactly the record times, as long as the total
stays at most `limit` (nothing is pruned and every check is allowed). -/
theorem runCalls_eq_append (limit : Nat) (window T : Int) :
    ∀ (calls : List (Int × Int)) (ts : List Int),
      (∀ p ∈ calls, p.1 ≤ T ∧ T - window < p.2) →
      (∀ t ∈ ts, T - window < t) →
      ts.length + calls.length ≤ limit →
      runCalls limit window calls ts = ts ++ calls.map Prod.snd := by
  intro calls
  induction calls with
  | nil =>
    intro ts _ _ _
    simp [runCalls]
  | cons p rest ih =>
    intro ts hcalls hts hlen
    obtain ⟨c, r⟩ := p
    have hp := hcalls (c, r) (List.mem_cons_self _ _)
    have hprune : ts.filter (fun t => c - window < t) = ts := by
      refine List.filter_eq_self.mpr ?_
      intro a ha
      have := hts a ha
      simp only [decide_eq_true_eq]
      omega
    have hallow : ¬ (limit ≤ ts.length) := by
      simp only [List.length_cons] at hlen
      omega
    have hstep : rateLimitStep limit window c r ts = ts ++ [r] := by
      simp only [rateLimitStep, check_rate_limit]
      rw [hprune, if_neg hallow]
      rfl
    simp only [runCalls, hstep]
    rw [ih (ts ++ [r]) (fun q hq => hcalls q (List.mem_cons_of_mem _ hq)) ?_ ?_]
    · simp
    · intro t ht
      rcases List.mem_append.mp ht with h | h
      · exact hts t h
      · rw [List.mem_singleton.mp h]
        exact hp.2
    · simp only [List.length_append, List.length_cons, List.length_nil] at hlen ⊢
      omega

/-- C1 (amended): starting from a session state holding no timestamps for
the action, for every `limit ≥ 0` and `window_seconds > 0`, if
`check_rate_limit` is called `limit+1` times, all calls within one window
`(T - window, T]`, with `record_action` performed after each allowed
check, then the `(limit+1)`-th call returns `allowed = false`. -/
theorem claim_C1_amended (limit : Nat) (window T final : Int) (hw : 0 < window)
    (calls : List (Int × Int))
    (hlen : calls.length = limit)
    (hcalls : ∀ p ∈ calls, (T - window < p.1 ∧ p.1 ≤ T) ∧ T - window < p.2 ∧ p.2 ≤ T)
    (hfin : T - window < final ∧ final ≤ T) :
    (check_rate_limit limit window final (runCalls limit window calls [])).1 = false := by
  have hrun := runCalls_eq_append limit window T calls []
    (fun p hp => ⟨(hcalls p hp).1.2, (hcalls p hp).2.1⟩)
    (by intro t ht; cases ht) (by simp [hlen])
  rw [hrun]
  simp only [List.nil_append, check_rate_limit]
  have hprune : (calls.map Prod.snd).filter (fun t => final - window < t) =
      calls.map Prod.snd := by
    refine List.filter_eq_self.mpr ?_
    intro a ha
    obtain ⟨p, hp, rfl⟩ := List.mem_map.mp ha
    have h1 := (hcalls p hp).2.1
    have h2 := hfin.2
    simp only [decide_eq_true_eq]
    omega
  rw [hprune, if_pos (by simp [hlen])]

theorem claim_C1_witness :
    (check_rate_limit 1 100 12 (runCalls 1 100 [(10, 11)] [])).1 = false :=
  claim_C1_amended 1 100 12 12 (by decide) [(10, 11)] (by decide) (by decide)
    (by decide)

theorem claim_C8_witness :
    validate_email (fun _ => true) "user@gmial.com" =
      (false, "Did you mean user@gmail.com?", some "user@gmail.com") :=
  claim_C8_typo_suggestion (fun _ => true) "user@gmial.com" "user" "gmial.com" "gmail.com"
    (by decide) (by decide) (by decide) (by decide) (by decide) (by decide)
